import Mathlib

set_option maxRecDepth 4000

/-!
Verification of the transfer state machine in `gcloud/streaming/transfer.py`
(client-side streaming upload/download engine for the Google Cloud Storage
JSON protocol).

The definitions below are a shallow embedding of that module: pure helpers
become Lean functions, the stateful `Download` / `Upload` objects become
explicit state records, and each request/response loop becomes structural
recursion over the list of server responses consumed by the loop.  Machine
integers are modelled as `Int` (Python integers are unbounded), Python
`None` as `Option`, and raised exceptions as explicit error outcomes.
-/

/-- Error kinds raised by the module (`gcloud.streaming.exceptions` plus the
built-in Python errors that the code can raise). -/
inductive PyError where
  | httpError
  | transferRetry
  | transferInvalid
  | communicationError
  | userError
  | invalidUserInput
  | configurationValue
  | invalidData
  | valueError
  | typeError
deriving DecidableEq

deriving instance DecidableEq for Except

/-- Python truthiness of an optional string (`None` and `''` are falsy). -/
def py_truthy_str : Option String → Bool
  | none => false
  | some s => !s.isEmpty

/-- Python truthiness of an optional integer (`None` and `0` are falsy). -/
def py_truthy_int : Option Int → Bool
  | none => false
  | some n => n != 0

/-- Characters after the last '/' of a character list, if any '/' occurs. -/
def after_last_slash : List Char → Option (List Char)
  | [] => none
  | c :: cs =>
    match after_last_slash cs with
    | some r => some r
    | none => if c = '/' then some cs else none

/-- Python `s.rpartition('/')[2]`: the substring after the last '/', or the
whole string when no '/' occurs (as used by `Download._set_total`). -/
def rpartition_after_slash (s : String) : String :=
  match after_last_slash s.data with
  | some cs => String.mk cs
  | none => s

/-- Characters after the first '-' of a character list, if any '-' occurs
(Python `s.partition('-')[2]`, which is empty when no '-' occurs). -/
def after_first_dash : List Char → Option (List Char)
  | [] => none
  | c :: cs => if c = '-' then some cs else after_first_dash cs

/-- Decimal digit value of a character. -/
def digit_val (c : Char) : Option Nat :=
  if '0' ≤ c ∧ c ≤ '9' then some (c.toNat - 48) else none

/-- Accumulating decimal parse of a character list; `none` on a non-digit. -/
def nat_of_chars_aux : Nat → List Char → Option Nat
  | acc, [] => some acc
  | acc, c :: cs =>
    match digit_val c with
    | some d => nat_of_chars_aux (acc * 10 + d) cs
    | none => none

/-- Python `int(s)` on a canonical (optionally '-'-signed) decimal numeral;
`none` models the `ValueError` raised on anything unparsable. -/
def str_to_int (s : String) : Option Int :=
  match s.data with
  | [] => none
  | '-' :: [] => none
  | '-' :: c :: cs => (nat_of_chars_aux 0 (c :: cs)).map (fun n => -(n : Int))
  | cs => (nat_of_chars_aux 0 cs).map (fun n => (n : Int))

/-- Python `int(range_header.partition('-')[2])` (`Upload._last_byte`):
the integer after the first '-' of the header, `none` on parse failure. -/
def last_byte (h : String) : Option Int :=
  match after_first_dash h.data with
  | none => none
  | some cs => str_to_int (String.mk cs)

/-- Constant `RESUMABLE_UPLOAD_THRESHOLD = 5 << 20`. -/
def RESUMABLE_UPLOAD_THRESHOLD : Int := 5 * 2 ^ 20

/-- Constant `SIMPLE_UPLOAD = 'simple'`. -/
def SIMPLE_UPLOAD : String := "simple"

/-- Constant `RESUMABLE_UPLOAD = 'resumable'`. -/
def RESUMABLE_UPLOAD : String := "resumable"

/-- Constant `Download._ACCEPTABLE_STATUSES = {OK, NO_CONTENT,
PARTIAL_CONTENT, REQUESTED_RANGE_NOT_SATISFIABLE}`. -/
def ACCEPTABLE_STATUSES : List Int := [200, 204, 206, 416]

/-! ## Download engine -/

/-- Mutable state of a `Download` object (the fields the core loop touches).
`writes` records the successive `stream.write` calls. -/
structure DLState where
  initialized : Bool
  progress : Int
  totalSize : Option Int
  encoding : Option String
  writes : List String
deriving DecidableEq

/-- Response surface consumed by the download loops: status, body content,
reported length, and the `content-range` / `content-encoding` headers. -/
structure DLResponse where
  status_code : Int
  content : String
  length : Int
  content_range : Option String
  content_encoding : Option String
deriving DecidableEq

/-- The unconditional trailing `if self.total_size is None: self.__total_size
= 0` of `Download._set_total`. -/
def none_to_zero : Option Int → Option Int
  | none => some 0
  | some t => some t

/-- `Download._set_total(info)`: parse the suffix of `content-range` after
the last '/' unless it is `'*'`, then default a still-unknown size to 0.
The argument is the `content-range` header value (or `none` when absent);
`Except.error` models the `ValueError` of `int()` on a bad suffix. -/
def set_total (total_size : Option Int) (content_range : Option String) :
    Except PyError (Option Int) :=
  match content_range with
  | some cr =>
    let total := rpartition_after_slash cr
    if total = "*" then Except.ok (none_to_zero total_size)
    else
      match str_to_int total with
      | some n => Except.ok (none_to_zero (some n))
      | none => Except.error PyError.valueError
  | none => Except.ok (none_to_zero total_size)

/-- `Download._normalize_start_end(start, end)`; errors are the
`TransferInvalidError` raises of the source. -/
def normalize_start_end (total_size : Int) (start : Int) (e0 : Option Int) :
    Except PyError (Int × Int) :=
  match e0 with
  | some e =>
    if start < 0 then Except.error PyError.transferInvalid
    else if start ≥ total_size then Except.error PyError.transferInvalid
    else
      let e2 := min e (total_size - 1)
      if e2 < start then Except.error PyError.transferInvalid
      else Except.ok (start, e2)
  | none =>
    if start < 0 then Except.ok (max 0 (start + total_size), total_size - 1)
    else Except.ok (start, total_size - 1)

/-- `Download._compute_end_byte(start, end, use_chunks)`, including the
truthiness tests `not self.total_size` / `if self.total_size`. -/
def compute_end_byte (total_size : Option Int) (chunksize : Int)
    (start : Int) (e0 : Option Int) (use_chunks : Bool) : Option Int :=
  if start < 0 ∧ py_truthy_int total_size = false then e0
  else
    let eb1 : Option Int :=
      if use_chunks then
        some (match e0 with
          | some e => min e (start + chunksize - 1)
          | none => start + chunksize - 1)
      else e0
    match total_size with
    | some t =>
      if t != 0 then
        some (match eb1 with
          | some e => min e (t - 1)
          | none => t - 1)
      else eb1
    | none => eb1

/-- `Download._process_response(response)`: classify the status, write the
body (200/206) or an empty chunk (204), and advance `self.__progress`. -/
def process_response (s : DLState) (r : DLResponse) :
    Except PyError DLState :=
  if !(ACCEPTABLE_STATUSES.contains r.status_code) then
    if r.status_code = 403 ∨ r.status_code = 404 then
      Except.error PyError.httpError
    else Except.error PyError.transferRetry
  else if r.status_code = 200 ∨ r.status_code = 206 then
    let s1 := { s with writes := s.writes ++ [r.content],
                       progress := s.progress + r.length }
    match r.content_encoding with
    | some enc => Except.ok { s1 with encoding := some enc }
    | none => Except.ok s1
  else if r.status_code = 204 then
    Except.ok { s with writes := s.writes ++ [""] }
  else Except.ok s

/-- Outcome of a download loop: normal return, a raised error, or the model
artifact of running out of scripted responses mid-loop. -/
inductive DLOutcome where
  | done (s : DLState)
  | error (e : PyError) (s : DLState)
  | outOfResponses (s : DLState)
deriving DecidableEq

/-- Loop guard of `Download.get_range`: `not progress_end_normalized or
end_byte is None or progress <= end_byte` (short-circuit order preserved). -/
def get_range_guard (normalized : Bool) (progress : Int)
    (end_byte : Option Int) : Bool :=
  !normalized ||
    (match end_byte with
     | none => true
     | some e => decide (progress ≤ e))

/-- Body of the `Download.get_range` while-loop, one scripted chunk response
per iteration.  `start0` / `e0` are the original arguments re-used by the
first-response normalization step; `progress` / `end_byte` are the loop-local
variables of the source. -/
def get_range_loop (chunksize : Int) (use_chunks : Bool)
    (start0 : Int) (e0 : Option Int) :
    DLState → Bool → Int → Option Int → List DLResponse → DLOutcome
  | s, normalized, progress, end_byte, [] =>
    if get_range_guard normalized progress end_byte then
      DLOutcome.outOfResponses s
    else DLOutcome.done s
  | s, normalized, progress, end_byte, r :: rest =>
    if get_range_guard normalized progress end_byte then
      let eb1 := compute_end_byte s.totalSize chunksize progress
                   end_byte use_chunks
      let norm : Except (PyError × DLState) (DLState × Int × Option Int) :=
        if normalized then Except.ok (s, progress, eb1)
        else
          match set_total s.totalSize r.content_range with
          | Except.error err => Except.error (err, s)
          | Except.ok none =>
            Except.error (PyError.typeError, { s with totalSize := none })
          | Except.ok (some t) =>
            match normalize_start_end t start0 e0 with
            | Except.error err =>
              Except.error (err, { s with totalSize := some t })
            | Except.ok pe =>
              Except.ok ({ s with totalSize := some t }, pe.1, some pe.2)
      match norm with
      | Except.error es => DLOutcome.error es.1 es.2
      | Except.ok spe =>
        match process_response spe.1 r with
        | Except.error err => DLOutcome.error err spe.1
        | Except.ok s2 =>
          if r.length = 0 then DLOutcome.error PyError.transferRetry s2
          else
            get_range_loop chunksize use_chunks start0 e0 s2 true
              (spe.2.1 + r.length) spe.2.2 rest
    else DLOutcome.done s

/-- `Download.get_range(start, end, use_chunks)` over a scripted list of
chunk responses: the entry normalization followed by the loop. -/
def get_range (chunksize : Int) (s : DLState) (start : Int)
    (e0 : Option Int) (use_chunks : Bool) (rs : List DLResponse) :
    DLOutcome :=
  if !s.initialized then DLOutcome.error PyError.transferInvalid s
  else
    match s.totalSize with
    | some t =>
      match normalize_start_end t start e0 with
      | Except.error err => DLOutcome.error err s
      | Except.ok pe =>
        get_range_loop chunksize use_chunks start e0 s true pe.1
          (some pe.2) rs
    | none => get_range_loop chunksize use_chunks start e0 s false start e0 rs

/-- One-iteration result of the `Download.stream_file` while-loop. -/
inductive DLFileStep where
  | brk (s : DLState)
  | cont (s : DLState)
  | fail (e : PyError) (s : DLState)
deriving DecidableEq

/-- Body of the `Download.stream_file` while-loop: learn `total_size` from
the response when still unknown, process the response, and exit on a 200
status or `progress >= total_size`. -/
def dl_stream_file_step (s : DLState) (r : DLResponse) : DLFileStep :=
  let sres : Except PyError DLState :=
    if s.totalSize = none then
      match set_total s.totalSize r.content_range with
      | Except.error err => Except.error err
      | Except.ok ts => Except.ok { s with totalSize := ts }
    else Except.ok s
  match sres with
  | Except.error err => DLFileStep.fail err s
  | Except.ok s1 =>
    match process_response s1 r with
    | Except.error err => DLFileStep.fail err s1
    | Except.ok s2 =>
      if r.status_code = 200 then DLFileStep.brk s2
      else
        match s2.totalSize with
        | some t =>
          if s2.progress ≥ t then DLFileStep.brk s2 else DLFileStep.cont s2
        | none => DLFileStep.fail PyError.typeError s2

/-- The `Download.stream_file` while-loop over scripted chunk responses. -/
def dl_stream_file_loop (s : DLState) : List DLResponse → DLOutcome
  | [] => DLOutcome.outOfResponses s
  | r :: rest =>
    match dl_stream_file_step s r with
    | DLFileStep.brk s2 => DLOutcome.done s2
    | DLFileStep.cont s2 => dl_stream_file_loop s2 rest
    | DLFileStep.fail err s2 => DLOutcome.error err s2

/-- `Download.stream_file(use_chunks)`: consume the cached initial response
first when present, then loop over further chunk responses. -/
def dl_stream_file (s : DLState) (initial : Option DLResponse)
    (rs : List DLResponse) : DLOutcome :=
  if !s.initialized then DLOutcome.error PyError.transferInvalid s
  else
    match initial with
    | some r =>
      match dl_stream_file_step s r with
      | DLFileStep.brk s2 => DLOutcome.done s2
      | DLFileStep.cont s2 => dl_stream_file_loop s2 rs
      | DLFileStep.fail err s2 => DLOutcome.error err s2
    | none => dl_stream_file_loop s rs

/-! ## Upload engine -/

/-- Upload endpoint configuration (the fields `_set_default_strategy`
consults). -/
structure UploadConfig where
  simple_path : Option String
  resumable_path : Option String
  simple_multipart : Bool
deriving DecidableEq

/-- The `Upload.strategy` property setter: validates the value and stores
it, with no guard against overwriting an already-set strategy. -/
def strategy_setter (_current : Option String) (value : String) :
    Except PyError (Option String) :=
  if value = SIMPLE_UPLOAD ∨ value = RESUMABLE_UPLOAD then
    Except.ok (some value)
  else Except.error PyError.userError

/-- `Upload._set_default_strategy(upload_config, http_request)`: the
strategy-selection logic, over the current strategy, `total_size`, the
endpoint config, and the request body (`body` truthiness as in Python). -/
def set_default_strategy (strategy0 : Option String)
    (total_size : Option Int) (cfg : UploadConfig) (body : Option String) :
    Option String :=
  let strategy1 :=
    if cfg.resumable_path = none then some SIMPLE_UPLOAD else strategy0
  if strategy1 ≠ none then strategy1
  else
    let st1 := SIMPLE_UPLOAD
    let st2 :=
      match total_size with
      | some t =>
        if RESUMABLE_UPLOAD_THRESHOLD < t then RESUMABLE_UPLOAD else st1
      | none => st1
    let st3 :=
      if py_truthy_str body = true ∧ cfg.simple_multipart = false then
        RESUMABLE_UPLOAD
      else st2
    let st4 :=
      if py_truthy_str cfg.simple_path = false then RESUMABLE_UPLOAD else st3
    some st4

/-- Whether `total_size` is known and exceeds the resumable threshold. -/
def exceeds_threshold : Option Int → Bool
  | some t => decide (RESUMABLE_UPLOAD_THRESHOLD < t)
  | none => false

/-- Modelled from the spec: the first-applicable-wins strategy-selection
rules of section 4.F.1, written from the spec's words for comparison with
`set_default_strategy` ("absent" rendered as Python falsiness, matching the
source's truthiness tests). -/
def spec_strategy (total_size : Option Int) (cfg : UploadConfig)
    (body : Option String) : String :=
  if cfg.resumable_path = none then SIMPLE_UPLOAD
  else if exceeds_threshold total_size = true ∨
          (py_truthy_str body = true ∧ cfg.simple_multipart = false) ∨
          py_truthy_str cfg.simple_path = false then
    RESUMABLE_UPLOAD
  else SIMPLE_UPLOAD

/-- Server answer to a `refresh_upload_state` / chunk-send request: status
and the (case-insensitively fetched) `Range` header. -/
structure RefreshResponse where
  status_code : Int
  rangeHeader : Option String
deriving DecidableEq

/-- Mutable state of an `Upload` object.  `progress` is `Option Int`
because `refresh_upload_state` assigns `self.total_size` (possibly `None`)
to it; `streamPos` is the stream's current position (`stream.tell()`) and
`streamLen` its end-of-data offset. -/
structure UploadState where
  strategy : Option String
  initialized : Bool
  totalSize : Option Int
  progress : Option Int
  complete : Bool
  streamPos : Int
  streamLen : Int
  finalResponse : Option RefreshResponse
deriving DecidableEq

/-- `Upload.refresh_upload_state()`: query the session with `PUT bytes */*`
(the given `resp` is the server's answer), then reconcile local state.  On
200/201 with unknown `total_size` the Python `stream.seek(None)` raises
`TypeError`; on an unparsable `Range` header `int()` raises `ValueError`. -/
def refresh_upload_state (s : UploadState) (resp : RefreshResponse) :
    Except PyError UploadState :=
  if s.strategy ≠ some RESUMABLE_UPLOAD then Except.ok s
  else if !s.initialized then Except.error PyError.transferInvalid
  else if resp.status_code = 200 ∨ resp.status_code = 201 then
    match s.totalSize with
    | some t =>
      Except.ok { s with complete := true, progress := some t,
                         streamPos := t, finalResponse := some resp }
    | none => Except.error PyError.typeError
  else if resp.status_code = 308 then
    match resp.rangeHeader with
    | none => Except.ok { s with progress := some 0, streamPos := 0 }
    | some h =>
      match last_byte h with
      | none => Except.error PyError.valueError
      | some lb =>
        Except.ok { s with progress := some (lb + 1), streamPos := lb + 1 }
  else Except.error PyError.httpError

/-- Data of one chunk request as built by `Upload._send_chunk` /
`_send_media_body`: the exclusive end offset passed to
`_send_media_request`, the (possibly updated) `total_size`, the
`Content-Range` header, and the stream position after the body is read. -/
structure ChunkRequest where
  reqEnd : Int
  newTotal : Option Int
  rangeString : String
  newPos : Int
deriving DecidableEq

/-- `Upload._send_chunk(start)` up to issuing the request.  Modelled from
the spec for the unknown-size branch: `BufferedStream` (file
`gcloud/streaming/buffered_stream.py`, not under `src/`) reads ahead up to
one chunk from the stream, with `stream_end_position` the absolute offset
reached and `stream_exhausted` true iff fewer bytes than requested came
back (spec section 4.B); the rest translates the source.  `consumed` is how
many bytes the transport drains from the `StreamSlice` body in the
known-size branch (nominally `end - start`). -/
def make_chunk_request (chunksize : Int) (total_size : Option Int)
    (start streamLen consumed : Int) : ChunkRequest :=
  match total_size with
  | none =>
    let avail := max 0 (streamLen - start)
    let bufRead := min chunksize avail
    let e := start + bufRead
    let nt : Option Int := if bufRead < chunksize then some e else none
    let rs :=
      match nt with
      | none =>
        "bytes " ++ toString start ++ "-" ++ toString (e - 1) ++ "/*"
      | some t =>
        if e = start then "bytes */" ++ toString t
        else
          "bytes " ++ toString start ++ "-" ++ toString (e - 1) ++ "/" ++
            toString t
    ⟨e, nt, rs, start + bufRead⟩
  | some t =>
    let e := min (start + chunksize) t
    let rs :=
      if e = start then "bytes */" ++ toString t
      else
        "bytes " ++ toString start ++ "-" ++ toString (e - 1) ++ "/" ++
          toString t
    ⟨e, some t, rs, start + consumed⟩

/-- `Upload._send_media_body(start)` up to issuing the request: requires a
known `total_size`, body a `StreamSlice` to end-of-data. -/
def make_media_body_request (total_size : Option Int)
    (start consumed : Int) : Except PyError ChunkRequest :=
  match total_size with
  | none => Except.error PyError.transferInvalid
  | some t =>
    let rs :=
      if start = t then "bytes */" ++ toString t
      else
        "bytes " ++ toString start ++ "-" ++ toString (t - 1) ++ "/" ++
          toString t
    Except.ok ⟨t, some t, rs, start + consumed⟩

/-- One exchange of the `Upload.stream_file` loop: the server's answer to
the chunk send (status and `Range` header), how many bytes the transport
drained from the request body, and the server's answer to the
`refresh_upload_state` call made on the failure path. -/
structure ChunkExchange where
  status_code : Int
  rangeHeader : Option String
  consumed : Int
  refreshResp : RefreshResponse
deriving DecidableEq

/-- One-iteration result of the `Upload.stream_file` while-loop. -/
inductive ChunkStep where
  | brk (s : UploadState)
  | cont (s : UploadState)
  | fail (e : PyError) (s : UploadState)
deriving DecidableEq

/-- `Upload._send_media_request(request, end)` followed by the tail of the
`stream_file` loop body: non-{200,201,308} statuses refresh then raise; a
308 re-seeks when the confirmed byte differs from the requested end, then
`stream_file` sets `progress` to the header's last byte and raises
`CommunicationError` when `progress + 1 != stream.tell()`; 200/201 set
`complete` and break. -/
def handle_media_response (reqEnd : Int) (s : UploadState)
    (ex : ChunkExchange) : ChunkStep :=
  if ¬(ex.status_code = 200 ∨ ex.status_code = 201 ∨
       ex.status_code = 308) then
    match refresh_upload_state s ex.refreshResp with
    | Except.ok s2 => ChunkStep.fail PyError.httpError s2
    | Except.error err => ChunkStep.fail err s
  else if ex.status_code = 308 then
    match ex.rangeHeader with
    | none => ChunkStep.fail PyError.typeError s
    | some h =>
      match last_byte h with
      | none => ChunkStep.fail PyError.valueError s
      | some lb =>
        let s2 := if lb + 1 ≠ reqEnd then { s with streamPos := lb } else s
        let s3 := { s2 with progress := some lb }
        if lb + 1 ≠ s3.streamPos then
          ChunkStep.fail PyError.communicationError s3
        else ChunkStep.cont s3
  else ChunkStep.brk { s with complete := true }

/-- One iteration of the `Upload.stream_file` loop: build the request from
`stream.tell()` with `_send_chunk` (chunked) or `_send_media_body`, then
handle the server's answer. -/
def send_step (chunksize : Int) (use_chunks : Bool) (s : UploadState)
    (ex : ChunkExchange) : ChunkStep :=
  let start := s.streamPos
  let req : Except PyError ChunkRequest :=
    if use_chunks then
      Except.ok (make_chunk_request chunksize s.totalSize start
        s.streamLen ex.consumed)
    else make_media_body_request s.totalSize start ex.consumed
  match req with
  | Except.error err => ChunkStep.fail err s
  | Except.ok cr =>
    handle_media_response cr.reqEnd
      { s with totalSize := cr.newTotal, streamPos := cr.newPos } ex

/-- Outcome of `Upload.stream_file`: normal return, a raised error, or the
model artifact of running out of scripted exchanges mid-loop. -/
inductive SFOutcome where
  | done (s : UploadState)
  | failed (e : PyError) (s : UploadState)
  | outOfResponses (s : UploadState)
deriving DecidableEq

/-- The post-loop seekability check of `Upload.stream_file`: when complete
and the stream is seekable, compare the current position against
end-of-data and raise `TransferInvalidError` on residual bytes. -/
def sf_final_check (seekable : Bool) (s : UploadState) : SFOutcome :=
  if s.complete = true ∧ seekable = true then
    if s.streamPos ≠ s.streamLen then
      SFOutcome.failed PyError.transferInvalid s
    else SFOutcome.done s
  else SFOutcome.done s

/-- The `while not self.complete` loop of `Upload.stream_file`, one
scripted exchange per iteration, followed by the post-loop check. -/
def upload_sf_loop (chunksize : Int) (use_chunks seekable : Bool) :
    UploadState → List ChunkExchange → SFOutcome
  | s, [] =>
    if s.complete = true then sf_final_check seekable s
    else SFOutcome.outOfResponses s
  | s, ex :: rest =>
    if s.complete = true then sf_final_check seekable s
    else
      match send_step chunksize use_chunks s ex with
      | ChunkStep.brk s2 => sf_final_check seekable s2
      | ChunkStep.cont s2 =>
        upload_sf_loop chunksize use_chunks seekable s2 rest
      | ChunkStep.fail err s2 => SFOutcome.failed err s2

/-- `Upload._validate_chunksize`: truthiness of `chunksize % granularity`. -/
def validate_chunksize_bad (granularity : Option Int)
    (chunksize : Int) : Bool :=
  match granularity with
  | none => false
  | some g => chunksize % g != 0

/-- `Upload.stream_file(use_chunks)`: strategy guard, chunk-size
validation, initialization guard, then the send loop. -/
def upload_stream_file (chunksize : Int) (granularity : Option Int)
    (use_chunks seekable : Bool) (s : UploadState)
    (exs : List ChunkExchange) : SFOutcome :=
  if s.strategy ≠ some RESUMABLE_UPLOAD then
    SFOutcome.failed PyError.invalidUserInput s
  else if use_chunks && validate_chunksize_bad granularity chunksize then
    SFOutcome.failed PyError.configurationValue s
  else if !s.initialized then SFOutcome.failed PyError.transferInvalid s
  else upload_sf_loop chunksize use_chunks seekable s exs

/-! ## Helper lemmas -/

/-- Acceptable statuses never raise in `Download._process_response`. -/
theorem process_acceptable_ok (s : DLState) (r : DLResponse)
    (ha : ACCEPTABLE_STATUSES.contains r.status_code = true) :
    ∃ s2, process_response s r = Except.ok s2 := by
  cases hres : process_response s r with
  | ok s2 => exact ⟨s2, rfl⟩
  | error e =>
    exfalso
    unfold process_response at hres
    rw [ha] at hres
    simp only [Bool.not_true, Bool.false_eq_true, if_false] at hres
    split at hres
    · split at hres <;> exact Except.noConfusion hres
    · split at hres
      · exact Except.noConfusion hres
      · exact Except.noConfusion hres

/-! ## Claim theorems -/

/-- Claim C2 (corrected), counterexample: with a caller-set strategy of
`'resumable'` and an upload config whose `resumable_path` is absent,
`_set_default_strategy` overwrites the already-set strategy with
`'simple'` — strategy is not immutable after it transitions from unset. -/
theorem claim2_counterexample :
    set_default_strategy (some RESUMABLE_UPLOAD) (some 10485760)
        ⟨some "/upload", none, true⟩ none = some SIMPLE_UPLOAD ∧
      SIMPLE_UPLOAD ≠ RESUMABLE_UPLOAD := by
  constructor
  · decide
  · decide

/-- Claim C2 (corrected, amended): once strategy is set, it is preserved by
`_set_default_strategy` whenever the config's `resumable_path` is present;
only the `resumable_path is None` branch (forcing `'simple'`) — or an
explicit call to the unguarded strategy setter — can change it. -/
theorem claim2_strategy_preserved (v : String) (ts : Option Int)
    (cfg : UploadConfig) (body : Option String)
    (hrp : cfg.resumable_path ≠ none) :
    set_default_strategy (some v) ts cfg body = some v := by
  simp [set_default_strategy, hrp]

/-- Claim C2 witness: a concrete config with `resumable_path` present keeps
a caller-set `'resumable'` strategy. -/
theorem claim2_witness :
    (some "/r" : Option String) ≠ none ∧
      set_default_strategy (some RESUMABLE_UPLOAD) none
        ⟨some "/p", some "/r", true⟩ none = some RESUMABLE_UPLOAD :=
  ⟨by decide,
    claim2_strategy_preserved RESUMABLE_UPLOAD none
      ⟨some "/p", some "/r", true⟩ none (by decide)⟩

/-- Claim C4 (confirmed): with strategy initially unset,
`_set_default_strategy` selects exactly the spec's first-applicable-wins
strategy: `resumable_path` absent forces `'simple'`; otherwise
`'resumable'` when the size is known and exceeds 5 MiB, or a request body
is present with `simple_multipart` false, or `simple_path` is absent;
otherwise `'simple'`. -/
theorem claim4_default_strategy_matches_spec (ts : Option Int)
    (cfg : UploadConfig) (body : Option String) :
    set_default_strategy none ts cfg body = some (spec_strategy ts cfg body) := by
  unfold set_default_strategy spec_strategy
  by_cases h1 : cfg.resumable_path = none
  · simp [h1]
  · cases ts with
    | none =>
      by_cases h3 : py_truthy_str body = true ∧ cfg.simple_multipart = false <;>
        by_cases h4 : py_truthy_str cfg.simple_path = false <;>
          simp [h1, h3, h4, exceeds_threshold]
    | some t =>
      by_cases h2 : RESUMABLE_UPLOAD_THRESHOLD < t <;>
        by_cases h3 : py_truthy_str body = true ∧ cfg.simple_multipart = false <;>
          by_cases h4 : py_truthy_str cfg.simple_path = false <;>
            simp [h1, h2, h3, h4, exceeds_threshold]

/-- Claim C5 (corrected), counterexample: a `Content-Range` header with a
`'*'` suffix does not leave `total_size` unknown — with `total_size`
previously `None`, `_set_total` ends by setting it to 0. -/
theorem claim5_counterexample :
    set_total none (some "bytes 0-0/*") = Except.ok (some 0) ∧
      (some (0 : Int)) ≠ (none : Option Int) := by
  constructor
  · decide
  · decide

/-- Claim C5 (corrected, amended): `_set_total` parses the integer after
the last '/' of `Content-Range` into `total_size`; a `'*'` suffix skips the
parse, and afterwards a still-unknown `total_size` — whether because the
header was absent or carried `'*'` — becomes 0; the call never leaves
`total_size` unknown. -/
theorem claim5_set_total_amended (ts : Option Int) (cr : String) (n : Int) :
    (set_total ts none = Except.ok (none_to_zero ts)) ∧
    (rpartition_after_slash cr = "*" →
       set_total ts (some cr) = Except.ok (none_to_zero ts)) ∧
    (rpartition_after_slash cr ≠ "*" →
       str_to_int (rpartition_after_slash cr) = some n →
       set_total ts (some cr) = Except.ok (some n)) ∧
    (∀ cr2 : Option String, set_total ts cr2 ≠ Except.ok none) := by
  refine ⟨rfl, ?_, ?_, ?_⟩
  · intro h
    simp [set_total, h]
  · intro h hp
    simp [set_total, h, hp, none_to_zero]
  · intro cr2
    cases cr2 with
    | none => cases ts <;> simp [set_total, none_to_zero]
    | some c =>
      simp only [set_total]
      split
      · cases ts <;> simp [none_to_zero]
      · cases hs : str_to_int (rpartition_after_slash c) <;>
          simp [hs, none_to_zero]

/-- Claim C5 witness: concrete header-absent, `'*'`-suffix, and parsed
cases, plus never-unknown at a concrete input. -/
theorem claim5_witness :
    set_total (some 7) none = Except.ok (none_to_zero (some 7)) ∧
    set_total none (some "a/*") = Except.ok (none_to_zero none) ∧
    set_total none (some "bytes 0-9/10") = Except.ok (some 10) ∧
    set_total (some 7) (some "x") ≠ Except.ok none :=
  ⟨(claim5_set_total_amended (some 7) "a/*" 10).1,
   (claim5_set_total_amended none "a/*" 10).2.1 (by decide),
   (claim5_set_total_amended none "bytes 0-9/10" 10).2.2.1 (by decide)
     (by decide),
   (claim5_set_total_amended (some 7) "x" 10).2.2.2 (some "x")⟩

/-- Claim C6 (corrected), counterexample: a suffix request (`start < 0`)
with unknown `total_size` and no `end` returns `None` from
`_compute_end_byte` even though `use_chunks` is true. -/
theorem claim6_counterexample :
    compute_end_byte none 1048576 (-1) none true = none := by
  decide

/-- Claim C6 (corrected, amended): `_compute_end_byte` returns `None`
exactly when no `end` was supplied, `total_size` is falsy (unknown or
zero), and either `start < 0` (the suffix early-return) or chunking is
disabled; so with `use_chunks` true the result can still be `None`, but
only for a suffix request with falsy size. -/
theorem claim6_compute_end_byte_none_iff (ts : Option Int) (cs start : Int)
    (e0 : Option Int) (uc : Bool) :
    compute_end_byte ts cs start e0 uc = none ↔
      (e0 = none ∧ py_truthy_int ts = false ∧ (start < 0 ∨ uc = false)) := by
  unfold compute_end_byte
  by_cases hg : start < 0 ∧ py_truthy_int ts = false
  · simp [hg, hg.1, hg.2]
  · simp only [hg, if_false]
    cases hts : ts with
    | none =>
      cases uc <;> simp_all [py_truthy_int]
    | some t =>
      by_cases ht : t = (0 : Int) <;> cases uc <;>
        simp_all [py_truthy_int]

/-- Claim C8 (confirmed): for a download response outside the acceptable
statuses {200, 204, 206, 416}, `_process_response` raises an HTTP error
exactly for statuses 403/404 and a retryable transfer error for every
other status; acceptable statuses never raise there. -/
theorem claim8_process_response_errors (s : DLState) (r : DLResponse) :
    (ACCEPTABLE_STATUSES.contains r.status_code = false →
       ((process_response s r = Except.error PyError.httpError ↔
           (r.status_code = 403 ∨ r.status_code = 404)) ∧
        (process_response s r = Except.error PyError.transferRetry ↔
           ¬(r.status_code = 403 ∨ r.status_code = 404)))) ∧
    (ACCEPTABLE_STATUSES.contains r.status_code = true →
       ∃ s2, process_response s r = Except.ok s2) := by
  constructor
  · intro hna
    unfold process_response
    rw [hna]
    by_cases h34 : r.status_code = 403 ∨ r.status_code = 404 <;>
      simp [h34]
  · exact process_acceptable_ok s r

/-- Claim C8 witness: a 500 raises the retryable error, a 403 the HTTP
error, and an acceptable 416 does not raise. -/
theorem claim8_witness :
    process_response ⟨true, 0, none, none, []⟩ ⟨500, "", 0, none, none⟩ =
        Except.error PyError.transferRetry ∧
    process_response ⟨true, 0, none, none, []⟩ ⟨403, "", 0, none, none⟩ =
        Except.error PyError.httpError ∧
    ∃ s2, process_response ⟨true, 0, none, none, []⟩ ⟨416, "", 0, none, none⟩ =
        Except.ok s2 :=
  ⟨((claim8_process_response_errors ⟨true, 0, none, none, []⟩
        ⟨500, "", 0, none, none⟩).1 (by decide)).2.mpr (by decide),
   ((claim8_process_response_errors ⟨true, 0, none, none, []⟩
        ⟨403, "", 0, none, none⟩).1 (by decide)).1.mpr (by decide),
   (claim8_process_response_errors ⟨true, 0, none, none, []⟩
        ⟨416, "", 0, none, none⟩).2 (by decide)⟩

/-- Claim C9 (confirmed): `refresh_upload_state` on an initialized
resumable upload whose server reports K confirmed bytes (a 308 whose
`Range` header ends at K-1, or completion with `total_size = K`) sets
`progress` to K and seeks the stream to K; a second call with the same
server answer leaves `progress`, `complete` and the stream position
unchanged. -/
theorem claim9_refresh_idempotent (s : UploadState) (resp : RefreshResponse)
    (k : Int) (hstrat : s.strategy = some RESUMABLE_UPLOAD)
    (hinit : s.initialized = true)
    (hcase : (resp.status_code = 308 ∧
                ∃ h, resp.rangeHeader = some h ∧ last_byte h = some (k - 1)) ∨
             ((resp.status_code = 200 ∨ resp.status_code = 201) ∧
                s.totalSize = some k)) :
    ∃ s1 s2, refresh_upload_state s resp = Except.ok s1 ∧
      s1.progress = some k ∧ s1.streamPos = k ∧
      refresh_upload_state s1 resp = Except.ok s2 ∧
      s2.progress = s1.progress ∧ s2.complete = s1.complete ∧
      s2.streamPos = s1.streamPos := by
  rcases hcase with ⟨h308, h, hhr, hlb⟩ | ⟨h2xx, htot⟩
  · have hne : ¬(resp.status_code = 200 ∨ resp.status_code = 201) := by
      rw [h308]; decide
    have hk : k - 1 + 1 = k := by ring
    refine ⟨{ s with progress := some k, streamPos := k },
            { s with progress := some k, streamPos := k },
            ?_, rfl, rfl, ?_, rfl, rfl, rfl⟩
    · simp only [refresh_upload_state, hstrat, hinit, hne, h308, hhr, hlb]
      simp [hk]
    · simp only [refresh_upload_state, hstrat, hinit, hne, h308, hhr, hlb]
      simp [hk]
  · refine ⟨{ s with complete := true, progress := some k, streamPos := k, finalResponse := some resp }, { s with complete := true, progress := some k, streamPos := k, finalResponse := some resp }, ?_, rfl, rfl, ?_, rfl, rfl, rfl⟩
    · simp [refresh_upload_state, hstrat, hinit, h2xx, htot]
    · simp [refresh_upload_state, hstrat, hinit, h2xx, htot]

/-- Claim C9 witness: a 308 reporting last byte 2 (K = 3) on a concrete
initialized resumable upload, applied twice. -/
theorem claim9_witness :
    ∃ s1 s2,
      refresh_upload_state
          ⟨some "resumable", true, some 5, some 0, false, 0, 5, none⟩
          ⟨308, some "bytes=0-2"⟩ = Except.ok s1 ∧
      s1.progress = some 3 ∧ s1.streamPos = 3 ∧
      refresh_upload_state s1 ⟨308, some "bytes=0-2"⟩ = Except.ok s2 ∧
      s2.progress = s1.progress ∧ s2.complete = s1.complete ∧
      s2.streamPos = s1.streamPos :=
  claim9_refresh_idempotent
    ⟨some "resumable", true, some 5, some 0, false, 0, 5, none⟩
    ⟨308, some "bytes=0-2"⟩ 3 rfl rfl
    (Or.inl ⟨rfl, "bytes=0-2", rfl, by decide⟩)

/-- Claim C7 (confirmed): the `Content-Range` header built by
`Upload._send_chunk(start)` is `'bytes <start>-<end-1>/*'` when
`total_size` is (still) unknown, `'bytes */<total_size>'` when
`end == start`, and `'bytes <start>-<end-1>/<total_size>'` otherwise, with
`end = min(start + chunksize, total_size)` for known sizes. -/
theorem claim7_send_chunk_content_range (cs : Int) (ts : Option Int)
    (start streamLen consumed : Int) (cr : ChunkRequest)
    (hcr : cr = make_chunk_request cs ts start streamLen consumed) :
    (cr.newTotal = none →
       cr.rangeString =
         "bytes " ++ toString start ++ "-" ++ toString (cr.reqEnd - 1) ++
           "/*") ∧
    (∀ t, cr.newTotal = some t →
       (cr.reqEnd = start → cr.rangeString = "bytes */" ++ toString t) ∧
       (cr.reqEnd ≠ start →
          cr.rangeString =
            "bytes " ++ toString start ++ "-" ++ toString (cr.reqEnd - 1) ++
              "/" ++ toString t)) ∧
    (∀ t, ts = some t → cr.reqEnd = min (start + cs) t) := by
  subst hcr
  cases ts with
  | some t =>
    simp only [make_chunk_request]
    refine ⟨?_, ?_, ?_⟩
    · intro hn
      exact Option.noConfusion hn
    · intro t2 ht2
      injection ht2 with ht
      subst ht
      by_cases he : min (start + cs) t = start <;> simp [he]
    · intro t2 ht2
      injection ht2 with ht
      subst ht
      rfl
  | none =>
    simp only [make_chunk_request]
    by_cases hb : min cs (max 0 (streamLen - start)) < cs <;>
      simp only [hb, if_true, if_false, reduceIte]
    · refine ⟨?_, ?_, ?_⟩
      · intro hn
        exact Option.noConfusion hn
      · intro t2 ht2
        injection ht2 with ht
        subst ht
        by_cases he : start + min cs (max 0 (streamLen - start)) = start <;>
          simp [he]
      · intro t2 ht2
        exact Option.noConfusion ht2
    · refine ⟨?_, ?_, ?_⟩
      · intro _
        trivial
      · intro t2 ht2
        exact Option.noConfusion ht2
      · intro t2 ht2
        exact Option.noConfusion ht2

/-- Claim C7 witness: concrete unknown-size (non-final and exhausted) and
known-size chunks produce the three documented header forms. -/
theorem claim7_witness :
    (make_chunk_request 4 none 0 10 0).rangeString =
        "bytes " ++ toString (0 : Int) ++ "-" ++
          toString ((make_chunk_request 4 none 0 10 0).reqEnd - 1) ++ "/*" ∧
    (make_chunk_request 4 (some 10) 10 10 0).rangeString =
        "bytes */" ++ toString (10 : Int) ∧
    (make_chunk_request 4 (some 10) 0 10 4).rangeString =
        "bytes " ++ toString (0 : Int) ++ "-" ++
          toString ((make_chunk_request 4 (some 10) 0 10 4).reqEnd - 1) ++
            "/" ++ toString (10 : Int) ∧
    (make_chunk_request 4 (some 10) 0 10 4).reqEnd = min (0 + 4) 10 :=
  ⟨(claim7_send_chunk_content_range 4 none 0 10 0 _ rfl).1 (by decide),
   ((claim7_send_chunk_content_range 4 (some 10) 10 10 0 _ rfl).2.1 10
       (by decide)).1 (by decide),
   ((claim7_send_chunk_content_range 4 (some 10) 0 10 4 _ rfl).2.1 10
       (by decide)).2 (by decide),
   (claim7_send_chunk_content_range 4 (some 10) 0 10 4 _ rfl).2.2 10 rfl⟩

/-- Claim C3 (corrected), counterexample: a chunk send returning 308 with
`Range` ending at byte 5 (a fully-consumed 6-byte chunk) advances
`progress` to 5, the reported last byte itself — not to `5 + 1` as the
claim states — and no communication error is raised. -/
theorem claim3_counterexample :
    send_step 6 true ⟨some "resumable", true, some 10, some 0, false, 0, 10, none⟩ ⟨308, some "bytes=0-5", 6, ⟨0, none⟩⟩ = ChunkStep.cont ⟨some "resumable", true, some 10, some 5, false, 6, 10, none⟩ ∧
      (⟨some "resumable", true, some 10, some 5, false, 6, 10, none⟩ : UploadState).progress ≠ some (5 + 1) := by
  constructor
  · decide
  · decide

/-- Claim C3 (corrected, amended): on a 308 whose `Range` header reports
last byte L, the `stream_file` loop advances `progress` to L (not L + 1),
and a communication error is raised if and only if `progress + 1`, that is
L + 1, differs from `stream.tell()` after the advance (the 308 handling of
`_send_media_request` having first re-seeked the stream to L when the
server's confirmed end differs from the requested one). -/
theorem claim3_chunk_progress_amended (cs : Int) (s : UploadState)
    (ex : ChunkExchange) (h : String) (lb : Int)
    (h308 : ex.status_code = 308) (hh : ex.rangeHeader = some h)
    (hlb : last_byte h = some lb) :
    ∃ s3, (send_step cs true s ex = ChunkStep.cont s3 ∨
           send_step cs true s ex = ChunkStep.fail PyError.communicationError s3) ∧
      s3.progress = some lb ∧
      (send_step cs true s ex = ChunkStep.fail PyError.communicationError s3 ↔
        ¬(lb + 1 = s3.streamPos)) := by
  have hor : ¬¬(ex.status_code = 200 ∨ ex.status_code = 201 ∨
      ex.status_code = 308) := by simp [h308]
  have hsend : send_step cs true s ex =
      handle_media_response
        (make_chunk_request cs s.totalSize s.streamPos s.streamLen
          ex.consumed).reqEnd
        { s with
            totalSize := (make_chunk_request cs s.totalSize s.streamPos
              s.streamLen ex.consumed).newTotal,
            streamPos := (make_chunk_request cs s.totalSize s.streamPos
              s.streamLen ex.consumed).newPos } ex := rfl
  rw [hsend]
  unfold handle_media_response
  rw [if_neg hor, if_pos h308, hh]
  dsimp only
  rw [hlb]
  dsimp only
  by_cases hseek : lb + 1 =
      (make_chunk_request cs s.totalSize s.streamPos s.streamLen
        ex.consumed).reqEnd
  · rw [if_neg (not_not_intro hseek)]
    dsimp only
    by_cases hcomm : lb + 1 =
        (make_chunk_request cs s.totalSize s.streamPos s.streamLen
          ex.consumed).newPos
    · rw [if_neg (not_not_intro hcomm)]
      exact ⟨_, Or.inl rfl, rfl, iff_of_false (by simp) (not_not_intro hcomm)⟩
    · rw [if_pos hcomm]
      exact ⟨_, Or.inr rfl, rfl, iff_of_true rfl hcomm⟩
  · rw [if_pos hseek]
    dsimp only
    rw [if_pos (show lb + 1 ≠ lb by omega)]
    exact ⟨_, Or.inr rfl, rfl,
      iff_of_true rfl (show ¬(lb + 1 = lb) from by omega)⟩

/-- Claim C3 witness: the amended statement at the concrete
fully-consumed-chunk input of the counterexample. -/
theorem claim3_witness :
    ∃ s3, (send_step 6 true ⟨some "resumable", true, some 10, some 0, false, 0, 10, none⟩ ⟨308, some "bytes=0-5", 6, ⟨0, none⟩⟩ = ChunkStep.cont s3 ∨
           send_step 6 true ⟨some "resumable", true, some 10, some 0, false, 0, 10, none⟩ ⟨308, some "bytes=0-5", 6, ⟨0, none⟩⟩ = ChunkStep.fail PyError.communicationError s3) ∧
      s3.progress = some 5 ∧
      (send_step 6 true ⟨some "resumable", true, some 10, some 0, false, 0, 10, none⟩ ⟨308, some "bytes=0-5", 6, ⟨0, none⟩⟩ = ChunkStep.fail PyError.communicationError s3 ↔
        ¬((5 : Int) + 1 = s3.streamPos)) :=
  claim3_chunk_progress_amended 6
    ⟨some "resumable", true, some 10, some 0, false, 0, 10, none⟩
    ⟨308, some "bytes=0-5", 6, ⟨0, none⟩⟩ "bytes=0-5" 5 rfl rfl (by decide)

/-- A 200/201 break of the send loop always records completion. -/
theorem handle_brk_complete (reqEnd : Int) (s : UploadState)
    (ex : ChunkExchange) (s2 : UploadState)
    (hb : handle_media_response reqEnd s ex = ChunkStep.brk s2) :
    s2.complete = true := by
  unfold handle_media_response at hb
  split at hb
  · split at hb <;> exact ChunkStep.noConfusion hb
  · split at hb
    · split at hb
      · exact ChunkStep.noConfusion hb
      · split at hb
        · exact ChunkStep.noConfusion hb
        · dsimp only at hb
          split at hb <;> split at hb <;> exact ChunkStep.noConfusion hb
    · injection hb with h
      subst h
      rfl

/-- A `brk` result of `send_step` always records completion. -/
theorem send_step_brk_complete (cs : Int) (uc : Bool) (s : UploadState)
    (ex : ChunkExchange) (s2 : UploadState)
    (hb : send_step cs uc s ex = ChunkStep.brk s2) : s2.complete = true := by
  unfold send_step at hb
  dsimp only at hb
  split at hb
  · exact ChunkStep.noConfusion hb
  · exact handle_brk_complete _ _ _ _ hb

/-- The post-loop check only returns `done` with the same state, and when
that state is complete and the stream seekable, its position must equal
end-of-data. -/
theorem sf_final_check_done (seekable : Bool) (s s2 : UploadState)
    (hd : sf_final_check seekable s = SFOutcome.done s2) :
    s2 = s ∧ (s.complete = true → seekable = true →
      s.streamPos = s.streamLen) := by
  unfold sf_final_check at hd
  split at hd
  · split at hd
    · exact SFOutcome.noConfusion hd
    · injection hd with h
      subst h
      rename_i hpos
      exact ⟨rfl, fun _ _ => by omega⟩
  · injection hd with h
    subst h
    rename_i hcs
    exact ⟨rfl, fun hc hs => absurd ⟨hc, hs⟩ hcs⟩

/-- Any `done` outcome of the send loop has `complete` set and, for a
seekable stream, the position at end-of-data. -/
theorem upload_sf_loop_done (cs : Int) (uc seekable : Bool) :
    ∀ (exs : List ChunkExchange) (s sf : UploadState),
      upload_sf_loop cs uc seekable s exs = SFOutcome.done sf →
      sf.complete = true ∧ (seekable = true → sf.streamPos = sf.streamLen) := by
  intro exs
  induction exs with
  | nil =>
    intro s sf hd
    unfold upload_sf_loop at hd
    split at hd
    · rename_i hc
      obtain ⟨heq, himp⟩ := sf_final_check_done seekable s sf hd
      subst heq
      exact ⟨hc, himp hc⟩
    · exact SFOutcome.noConfusion hd
  | cons ex rest ih =>
    intro s sf hd
    unfold upload_sf_loop at hd
    split at hd
    · rename_i hc
      obtain ⟨heq, himp⟩ := sf_final_check_done seekable s sf hd
      subst heq
      exact ⟨hc, himp hc⟩
    · split at hd
      · rename_i s2 hstep
        have hc2 := send_step_brk_complete cs uc s ex s2 hstep
        obtain ⟨heq, himp⟩ := sf_final_check_done seekable s2 sf hd
        subst heq
        exact ⟨hc2, himp hc2⟩
      · exact ih _ _ hd
      · exact SFOutcome.noConfusion hd

/-- Claim C1 (corrected), counterexample: a two-chunk resumable upload of
2 bytes driven to completion by `stream_file` (first chunk 308, second
200) exits with the stream at end-of-data but with `progress` still 0 —
the completing 200 never updates `progress`, so the final progress differs
from `total_size`. -/
theorem claim1_counterexample :
    upload_stream_file 1 none true true ⟨some "resumable", true, some 2, some 0, false, 0, 2, none⟩ [⟨308, some "bytes=0-0", 1, ⟨0, none⟩⟩, ⟨200, none, 1, ⟨0, none⟩⟩] = SFOutcome.done ⟨some "resumable", true, some 2, some 0, true, 2, 2, none⟩ ∧
      (⟨some "resumable", true, some 2, some 0, true, 2, 2, none⟩ : UploadState).progress ≠
        (⟨some "resumable", true, some 2, some 0, true, 2, 2, none⟩ : UploadState).totalSize := by
  constructor
  · decide
  · decide

/-- Claim C1 (corrected, amended): whenever `Upload.stream_file` returns
successfully, `complete` is true and, if the stream is seekable, its
position is at end-of-data on exit (the post-loop check raises otherwise);
but the completing 200/201 response does not update `progress`, which
keeps the value set by the last 308 (the reported last byte itself), so
the final progress need not equal `total_size`. -/
theorem claim1_stream_file_amended (cs : Int) (gran : Option Int)
    (uc seekable : Bool) (s : UploadState) (exs : List ChunkExchange)
    (sf : UploadState)
    (hd : upload_stream_file cs gran uc seekable s exs = SFOutcome.done sf) :
    sf.complete = true ∧ (seekable = true → sf.streamPos = sf.streamLen) := by
  unfold upload_stream_file at hd
  split at hd
  · exact SFOutcome.noConfusion hd
  · split at hd
    · exact SFOutcome.noConfusion hd
    · split at hd
      · exact SFOutcome.noConfusion hd
      · exact upload_sf_loop_done cs uc seekable exs s sf hd

/-- Claim C1 witness: the amended statement at the concrete completed
two-chunk run of the counterexample. -/
theorem claim1_witness :
    (⟨some "resumable", true, some 2, some 0, true, 2, 2, none⟩ : UploadState).complete = true ∧
      (true = true →
        (⟨some "resumable", true, some 2, some 0, true, 2, 2, none⟩ : UploadState).streamPos =
          (⟨some "resumable", true, some 2, some 0, true, 2, 2, none⟩ : UploadState).streamLen) :=
  claim1_stream_file_amended 1 none true true
    ⟨some "resumable", true, some 2, some 0, false, 0, 2, none⟩
    [⟨308, some "bytes=0-0", 1, ⟨0, none⟩⟩, ⟨200, none, 1, ⟨0, none⟩⟩]
    ⟨some "resumable", true, some 2, some 0, true, 2, 2, none⟩ (by decide)

/-- Claim C10 (corrected), counterexample: on a download whose
`total_size` is already known to be 0, `get_range(0)` normalizes to the
empty range `(0, -1)`, never enters the loop body, issues no request, and
returns successfully — so `get_range` can complete on a zero-byte
resource. -/
theorem claim10_counterexample :
    get_range 1048576 ⟨true, 0, some 0, none, []⟩ 0 none true [] =
        DLOutcome.done ⟨true, 0, some 0, none, []⟩ ∧
      (⟨true, 0, some 0, none, []⟩ : DLState).totalSize = some 0 := by
  constructor
  · decide
  · decide

/-- Claim C10 (corrected, amended): every `get_range` iteration that
consumes a response of length 0 and passes `_process_response` — including
the acceptable statuses 204 and 416 — raises a retryable transfer error,
so `get_range` never completes a zero-byte fetch that issues at least one
request (with `total_size` already 0 it returns without issuing any);
`Download.stream_file` handles the same zero-length responses without
error. -/
theorem claim10_zero_length_amended :
    (∀ (cs : Int) (uc : Bool) (st0 : Int) (e0 : Option Int) (s : DLState)
       (normalized : Bool) (p : Int) (eb : Option Int) (r : DLResponse)
       (rest : List DLResponse),
       get_range_guard normalized p eb = true → r.length = 0 →
       ∃ e s2, get_range_loop cs uc st0 e0 s normalized p eb (r :: rest) =
         DLOutcome.error e s2) ∧
    (∀ (cs : Int) (uc : Bool) (st0 : Int) (e0 : Option Int) (s : DLState)
       (p : Int) (eb : Option Int) (r : DLResponse) (rest : List DLResponse),
       get_range_guard true p eb = true → r.length = 0 →
       ACCEPTABLE_STATUSES.contains r.status_code = true →
       ∃ s2, get_range_loop cs uc st0 e0 s true p eb (r :: rest) =
         DLOutcome.error PyError.transferRetry s2) ∧
    (∀ (cs : Int) (uc : Bool) (st0 : Int) (e0 : Option Int) (s : DLState)
       (p : Int) (eb : Option Int) (r : DLResponse) (rest : List DLResponse)
       (t : Int) (pe : Int × Int),
       set_total s.totalSize r.content_range = Except.ok (some t) →
       normalize_start_end t st0 e0 = Except.ok pe →
       r.length = 0 → ACCEPTABLE_STATUSES.contains r.status_code = true →
       ∃ s2, get_range_loop cs uc st0 e0 s false p eb (r :: rest) =
         DLOutcome.error PyError.transferRetry s2) ∧
    dl_stream_file ⟨true, 0, none, none, []⟩ (some ⟨204, "", 0, none, none⟩)
        [] = DLOutcome.done ⟨true, 0, some 0, none, [""]⟩ ∧
    dl_stream_file ⟨true, 0, none, none, []⟩ (some ⟨416, "", 0, none, none⟩)
        [] = DLOutcome.done ⟨true, 0, some 0, none, []⟩ := by
  refine ⟨?_, ?_, ?_, by decide, by decide⟩
  · intro cs uc st0 e0 s normalized p eb r rest hguard hlen
    cases normalized with
    | true =>
      cases hpr : process_response s r with
      | error err =>
        refine ⟨err, s, ?_⟩
        unfold get_range_loop
        rw [hguard]
        simp only [reduceIte, hpr]
      | ok s2 =>
        refine ⟨PyError.transferRetry, s2, ?_⟩
        unfold get_range_loop
        rw [hguard]
        simp only [reduceIte, hpr, hlen]
    | false =>
      cases hst : set_total s.totalSize r.content_range with
      | error err =>
        refine ⟨err, s, ?_⟩
        unfold get_range_loop
        rw [hguard]
        simp only [reduceIte, Bool.false_eq_true, if_false, hst]
      | ok ts =>
        cases ts with
        | none =>
          refine ⟨PyError.typeError, { s with totalSize := none }, ?_⟩
          unfold get_range_loop
          rw [hguard]
          simp only [reduceIte, Bool.false_eq_true, if_false, hst]
        | some t =>
          cases hn : normalize_start_end t st0 e0 with
          | error err =>
            refine ⟨err, { s with totalSize := some t }, ?_⟩
            unfold get_range_loop
            rw [hguard]
            simp only [reduceIte, Bool.false_eq_true, if_false, hst, hn]
          | ok pe =>
            cases hpr : process_response { s with totalSize := some t } r with
            | error err =>
              refine ⟨err, { s with totalSize := some t }, ?_⟩
              unfold get_range_loop
              rw [hguard]
              simp only [reduceIte, Bool.false_eq_true, if_false, hst, hn, hpr]
            | ok s2 =>
              refine ⟨PyError.transferRetry, s2, ?_⟩
              unfold get_range_loop
              rw [hguard]
              simp only [reduceIte, Bool.false_eq_true, if_false, hst, hn, hpr, hlen]
  · intro cs uc st0 e0 s p eb r rest hguard hlen hacc
    obtain ⟨s2, hs2⟩ := process_acceptable_ok s r hacc
    refine ⟨s2, ?_⟩
    unfold get_range_loop
    rw [hguard]
    simp only [reduceIte, hs2, hlen]
  · intro cs uc st0 e0 s p eb r rest t pe hst hn hlen hacc
    obtain ⟨s2, hpr⟩ := process_acceptable_ok { s with totalSize := some t } r hacc
    refine ⟨s2, ?_⟩
    have hguard : get_range_guard false p eb = true := rfl
    unfold get_range_loop
    rw [hguard]
    simp only [reduceIte, Bool.false_eq_true, if_false, hst, hn, hpr, hlen]

/-- Claim C10 witness: a length-0 response consumed by an un-normalized
first iteration of an unknown-size download raises, a 416 of length 0 in a
normalized iteration raises the retryable transfer error, and so does a
204 of length 0 in the un-normalized first iteration once `_set_total` and
normalization succeed. -/
theorem claim10_witness :
    (∃ e s2, get_range_loop 1048576 true 0 none ⟨true, 0, none, none, []⟩
        false 0 none [⟨204, "", 0, none, none⟩] =
      DLOutcome.error e s2) ∧
    (∃ s2, get_range_loop 1048576 true 0 none ⟨true, 0, some 0, none, []⟩
        true 0 none [⟨416, "", 0, none, none⟩] =
      DLOutcome.error PyError.transferRetry s2) ∧
    (∃ s2, get_range_loop 1048576 true 0 none ⟨true, 0, none, none, []⟩
        false 0 none [⟨204, "", 0, none, none⟩] =
      DLOutcome.error PyError.transferRetry s2) :=
  ⟨claim10_zero_length_amended.1 1048576 true 0 none
     ⟨true, 0, none, none, []⟩ false 0 none ⟨204, "", 0, none, none⟩ []
     rfl rfl,
   claim10_zero_length_amended.2.1 1048576 true 0 none
     ⟨true, 0, some 0, none, []⟩ 0 none ⟨416, "", 0, none, none⟩ []
     (by decide) rfl (by decide),
   claim10_zero_length_amended.2.2.1 1048576 true 0 none
     ⟨true, 0, none, none, []⟩ 0 none ⟨204, "", 0, none, none⟩ [] 0 (0, -1)
     (by decide) (by decide) rfl (by decide)⟩
